import Mathlib

/-!
Verification of the Account REST microservice request-handling layer
(`service/routes.py`) against its specification.

The handlers in `service/routes.py` are embedded as pure Lean functions over
an explicit store state.  The Account entity/store (`service/models.py`) is
not part of the handler sources, so its operations are modelled from the
specification (section 4.1 of the spec); each such definition carries a doc
comment saying so.  Routing (Flask route decorators with string and integer
path converters) is embedded as a dispatch function on the path segment.
-/

set_option autoImplicit false

namespace Svc

/-- A JSON scalar value appearing in a serialized account mapping. -/
inductive JVal where
  | jInt (n : Nat)
  | jStr (s : String)
deriving DecidableEq

/-- Modelled from the spec (the Account entity lives in `service/models.py`,
which is outside the handler sources): an Account record has an integer
identifier assigned by the store, four required text fields and a date
(held here in its ISO-8601 string form). -/
structure Account where
  id : Nat
  name : String
  email : String
  address : String
  phone_number : String
  date_joined : String
deriving DecidableEq

/-- Modelled from the spec: the store holding Account records in natural
storage order, together with the next identifier to assign on creation. -/
structure Store where
  accounts : List Account
  nextId : Nat
deriving DecidableEq

/-- The empty store. -/
def Store.emptyStore : Store := ⟨[], 1⟩

/-- Modelled from the spec: `find(id)` returns the matching Account or a
not-found indicator (no exception for absence). -/
def Account.find (s : Store) (id : Nat) : Option Account :=
  s.accounts.find? (fun a => a.id == id)

/-- Flask's `int` path converter: a non-empty all-digit segment parses to
the integer it denotes; anything else does not match the converter. -/
def decimalSegment (seg : String) : Option Nat :=
  if seg.data ≠ [] ∧ seg.data.all (fun c => c.isDigit) then
    some (seg.data.foldl (fun n c => n * 10 + (c.toNat - 48)) 0)
  else none

/-- The raw path segment of `GET /accounts/<id>` is a string; the store
looks it up as an integer identifier.  A non-integer segment matches no
stored record. -/
def Account.findStr (s : Store) (idStr : String) : Option Account :=
  match decimalSegment idStr with
  | none => none
  | some n => Account.find s n

/-- The field values carried by a successfully deserialized request body
(everything of an Account except the server-assigned identifier). -/
structure AccountData where
  name : String
  email : String
  address : String
  phone_number : String
  date_joined : String
deriving DecidableEq

/-- A request body as parsed JSON: each account key either present with a
string value or absent.  A JSON `null` body is represented as `none` at the
`Option Payload` level where the handlers receive it. -/
structure Payload where
  name : Option String
  email : Option String
  address : Option String
  phone_number : Option String
  date_joined : Option String
deriving DecidableEq

/-- Modelled from the spec: `deserialize(mapping)` populates an Account from
a key/value mapping; it fails with a validation error if any required field
(name, email, address, phone_number) is missing or of the wrong shape (a
`null` body has no fields at all); `date_joined` defaults to the current
date if absent. -/
def deserialize (body : Option Payload) (today : String) : Option AccountData :=
  match body with
  | none => none
  | some p =>
    match p.name, p.email, p.address, p.phone_number with
    | some n, some e, some ad, some ph =>
        some ⟨n, e, ad, ph, p.date_joined.getD today⟩
    | _, _, _, _ => none

/-- Modelled from the spec: `serialize()` converts an Account to a plain
key/value mapping (identifier as integer, the other fields as strings). -/
def Account.serialize (a : Account) : List (String × JVal) :=
  [("id", JVal.jInt a.id), ("name", JVal.jStr a.name),
   ("email", JVal.jStr a.email), ("address", JVal.jStr a.address),
   ("phone_number", JVal.jStr a.phone_number),
   ("date_joined", JVal.jStr a.date_joined)]

/-- Modelled from the spec: `create()` persists a new Account and assigns it
a new unique identifier; always succeeds. -/
def Store.create (s : Store) (d : AccountData) : Account × Store :=
  let a : Account :=
    ⟨s.nextId, d.name, d.email, d.address, d.phone_number, d.date_joined⟩
  (a, ⟨s.accounts ++ [a], s.nextId + 1⟩)

/-- Modelled from the spec: `update()` overwrites the stored record whose
identifier matches the in-memory Account. -/
def Store.updateAccount (s : Store) (a : Account) : Store :=
  ⟨s.accounts.map (fun b => if b.id == a.id then a else b), s.nextId⟩

/-- Modelled from the spec: `delete()` removes the stored record with the
given identifier; no-op if absent. -/
def Store.deleteAccount (s : Store) (id : Nat) : Store :=
  ⟨s.accounts.filter (fun b => b.id != id), s.nextId⟩

/-- Modelled from the spec: `all()` returns every stored Account in natural
storage order. -/
def Store.all (s : Store) : List Account := s.accounts

/-- The body of an HTTP response. -/
inductive RBody where
  | empty
  | obj (fields : List (String × JVal))
  | arr (items : List (List (String × JVal)))
  | err (msg : String)
deriving DecidableEq

/-- An HTTP response: a status code and a body. -/
structure Response where
  status : Nat
  body : RBody
deriving DecidableEq

/-- From `service/routes.py`, `check_content_type`: reads the Content-Type
header (absent header modelled as `none`); passes only when the header is
present, non-empty (Python truthiness) and equal to the media type;
otherwise aborts with 415.  Returns `none` on success and the abort
response on failure. -/
def check_content_type (media_type : String) (contentType : Option String) :
    Option Response :=
  match contentType with
  | some c =>
      if c ≠ "" ∧ c = media_type then none
      else some ⟨415, RBody.err ("Content-Type must be " ++ media_type)⟩
  | none => some ⟨415, RBody.err ("Content-Type must be " ++ media_type)⟩

/-- From `service/routes.py`, `create_accounts` (`POST /accounts`): checks
the content type, deserializes the body, creates the account and returns
201 with the serialized account.  A deserialization failure surfaces as a
400 validation error (per the spec error taxonomy; the error-translation
layer is outside the handler sources). -/
def create_accounts (contentType : Option String) (body : Option Payload)
    (today : String) (s : Store) : Response × Store :=
  match check_content_type "application/json" contentType with
  | some resp => (resp, s)
  | none =>
    match deserialize body today with
    | none => (⟨400, RBody.err "Bad Request"⟩, s)
    | some d =>
      let r := Store.create s d
      (⟨201, RBody.obj r.1.serialize⟩, r.2)

/-- From `service/routes.py`, `list_accounts` (`GET /accounts`): returns
200 with the list of serialized accounts. -/
def list_accounts (s : Store) : Response × Store :=
  (⟨200, RBody.arr ((Store.all s).map Account.serialize)⟩, s)

/-- From `service/routes.py`, `read_account` (`GET /accounts/<id>`, string
converter): finds the account by the raw path segment; 404 when absent,
otherwise 200 with the serialized account. -/
def read_account (idStr : String) (s : Store) : Response × Store :=
  match Account.findStr s idStr with
  | none => (⟨404, RBody.err ("Account " ++ idStr ++ " not found")⟩, s)
  | some a => (⟨200, RBody.obj a.serialize⟩, s)

/-- From `service/routes.py`, `update_account` (`PUT /accounts/<int:id>`):
finds the account (404 when absent), deserializes the body onto it (400 on
failure), stores the updated record and returns 200 with its serialized
form. -/
def update_account (id : Nat) (body : Option Payload) (today : String)
    (s : Store) : Response × Store :=
  match Account.find s id with
  | none => (⟨404, RBody.err "Account could not be found"⟩, s)
  | some a =>
    match deserialize body today with
    | none => (⟨400, RBody.err "Account Data invalid"⟩, s)
    | some d =>
      let a2 : Account :=
        ⟨a.id, d.name, d.email, d.address, d.phone_number, d.date_joined⟩
      (⟨200, RBody.obj a2.serialize⟩, Store.updateAccount s a2)

/-- From `service/routes.py`, `delete_account` (`DELETE /accounts/<int:id>`):
deletes the account when it exists; returns 204 with an empty body either
way. -/
def delete_account (id : Nat) (s : Store) : Response × Store :=
  match Account.find s id with
  | some _ => (⟨204, RBody.empty⟩, Store.deleteAccount s id)
  | none => (⟨204, RBody.empty⟩, s)

/-- The HTTP methods routed on `/accounts/<segment>`. -/
inductive HttpMethod where
  | get
  | post
  | put
  | delete
deriving DecidableEq

/-- Which handler (if any) a request on `/accounts/<segment>` dispatches
to. -/
inductive RouteMatch where
  | readHandler (idStr : String)
  | updateHandler (id : Nat)
  | deleteHandler (id : Nat)
  | methodNotAllowed
  | noRoute
deriving DecidableEq

/-- From the route decorators in `service/routes.py`: `GET /accounts/<id>`
uses the default string converter (any non-empty segment), while PUT and
DELETE use the integer converter `<int:id>` (digits only, as captured by
`decimalSegment`).  A URL that matches a rule only under another method
yields 405. -/
def dispatchAccountId (m : HttpMethod) (seg : String) : RouteMatch :=
  if seg = "" then RouteMatch.noRoute
  else
    match m with
    | HttpMethod.get => RouteMatch.readHandler seg
    | HttpMethod.put =>
      match decimalSegment seg with
      | some n => RouteMatch.updateHandler n
      | none => RouteMatch.noRoute
    | HttpMethod.delete =>
      match decimalSegment seg with
      | some n => RouteMatch.deleteHandler n
      | none => RouteMatch.noRoute
    | HttpMethod.post => RouteMatch.methodNotAllowed

/-- A sample account used by witness theorems. -/
def sampleAccount : Account :=
  ⟨1, "John Doe", "jdoe at example dot com", "1 Main St", "555-0100", "2020-01-01"⟩

/-- A sample store holding `sampleAccount` under identifier 1. -/
def sampleStore : Store := ⟨[sampleAccount], 2⟩

/-- A sample valid request payload, distinct from `sampleAccount` in every
field. -/
def samplePayload : Payload :=
  ⟨some "Jane Roe", some "jroe at example dot com", some "2 Oak Ave",
   some "555-0199", some "2021-06-15"⟩

/-- The field values obtained by deserializing `samplePayload`. -/
def sampleData : AccountData :=
  ⟨"Jane Roe", "jroe at example dot com", "2 Oak Ave", "555-0199",
   "2021-06-15"⟩

/-- The store reached by POSTing each payload in turn (with the correct
content type), threading the store through the requests. -/
def postAllStore (ps : List Payload) (today : String) (s : Store) : Store :=
  match ps with
  | [] => s
  | p :: rest =>
      postAllStore rest today
        (create_accounts (some "application/json") (some p) today s).2

/-- The status codes answered by POSTing each payload in turn (with the
correct content type), threading the store through the requests. -/
def postAllStatuses (ps : List Payload) (today : String) (s : Store) :
    List Nat :=
  match ps with
  | [] => []
  | p :: rest =>
      (create_accounts (some "application/json") (some p) today s).1.status ::
        postAllStatuses rest today
          (create_accounts (some "application/json") (some p) today s).2

/-- An account matches a creation payload when its non-identifier fields
are exactly what deserializing that payload yields. -/
def accountMatches (today : String) (a : Account) (p : Payload) : Prop :=
  deserialize (some p) today =
    some ⟨a.name, a.email, a.address, a.phone_number, a.date_joined⟩

/-- An account returned by `Account.find` carries the identifier it was
looked up by. -/
theorem Account.find_id {s : Store} {id : Nat} {a : Account}
    (h : Account.find s id = some a) : a.id = id := by
  have := List.find?_some h
  simpa using this

/-- A lookup in a list from which every record under `id` was filtered out
fails. -/
theorem find?_filter_ne (l : List Account) (id : Nat) :
    (l.filter (fun b => b.id != id)).find? (fun b => b.id == id) = none := by
  induction l with
  | nil => rfl
  | cons c t ih =>
    by_cases h : c.id = id
    · simp [List.filter_cons, h, ih]
    · simp [List.filter_cons, h, ih]

/-- Deleting an identifier removes every record under it: a lookup of the
same identifier afterwards fails. -/
theorem find_deleteAccount (s : Store) (id : Nat) :
    Account.find (Store.deleteAccount s id) id = none :=
  find?_filter_ne s.accounts id

/-- Replacing, in a list containing a record under `id`, every record under
`a2.id = id` by `a2` makes a lookup of `id` return `a2`. -/
theorem find?_map_update (l : List Account) (id : Nat) (a a2 : Account)
    (h : l.find? (fun b => b.id == id) = some a) (h2 : a2.id = id) :
    (l.map (fun b => if b.id == a2.id then a2 else b)).find?
      (fun b => b.id == id) = some a2 := by
  induction l with
  | nil => simp at h
  | cons c t ih =>
    by_cases hc : c.id = id
    · simp [List.map_cons, List.find?_cons, hc, h2]
    · rw [List.find?_cons_of_neg t (by simpa using hc)] at h
      simp only [List.map_cons]
      rw [if_neg (by simp [h2, hc]), List.find?_cons_of_neg _ (by simpa using hc)]
      exact ih h

/-- After `Store.updateAccount` with a record whose identifier was already
present, a lookup of that identifier returns the new record. -/
theorem find_updateAccount {s : Store} {id : Nat} {a : Account}
    (a2 : Account) (h : Account.find s id = some a) (h2 : a2.id = id) :
    Account.find (Store.updateAccount s a2) id = some a2 :=
  find?_map_update s.accounts id a a2 h h2

/-- Claim C1: for every PUT request to `/accounts/id` where an account with
identifier `id` exists, if the request body fails deserialization
(including a JSON null body), the response status is 400. -/
theorem claim_C1_put_bad_body_400 (id : Nat) (body : Option Payload)
    (today : String) (s : Store) (a : Account)
    (hf : Account.find s id = some a)
    (hd : deserialize body today = none) :
    (update_account id body today s).1.status = 400 := by
  simp [update_account, hf, hd]

/-- Witness for C1: a concrete store holding account 1 and a null body. -/
theorem claim_C1_witness :
    (Account.find sampleStore 1 = some sampleAccount ∧
      deserialize none "2020-02-02" = none) ∧
    (update_account 1 none "2020-02-02" sampleStore).1.status = 400 :=
  ⟨⟨by decide, rfl⟩,
    claim_C1_put_bad_body_400 1 none "2020-02-02" sampleStore sampleAccount
      (by decide) rfl⟩

/-- Claim C2: for every POST to `/accounts`, if the Content-Type header is
not exactly `application/json` (including an absent header), the response
status is 415, regardless of the body. -/
theorem claim_C2_create_wrong_media_type_415 (ct : Option String)
    (body : Option Payload) (today : String) (s : Store)
    (h : ct ≠ some "application/json") :
    (create_accounts ct body today s).1.status = 415 := by
  cases ct with
  | none => simp [create_accounts, check_content_type]
  | some c =>
    have hc : ¬ c = "application/json" := fun he => h (by rw [he])
    simp [create_accounts, check_content_type, hc]

/-- Witness for C2: an absent header and a wrong header, each with a fully
valid body. -/
theorem claim_C2_witness :
    ((none : Option String) ≠ some "application/json" ∧
      (some "test/html" : Option String) ≠ some "application/json") ∧
    (create_accounts none (some samplePayload) "2020-02-02"
        Store.emptyStore).1.status = 415 ∧
    (create_accounts (some "test/html") (some samplePayload) "2020-02-02"
        Store.emptyStore).1.status = 415 :=
  ⟨⟨by decide, by decide⟩,
    claim_C2_create_wrong_media_type_415 none (some samplePayload)
      "2020-02-02" Store.emptyStore (by decide),
    claim_C2_create_wrong_media_type_415 (some "test/html")
      (some samplePayload) "2020-02-02" Store.emptyStore (by decide)⟩

/-- Claim C3: every DELETE on `/accounts/id` answers 204 with an empty
body; when the account exists it is removed, and when it does not the store
is untouched (no error). -/
theorem claim_C3_delete_idempotent (id : Nat) (s : Store) :
    (delete_account id s).1 = ⟨204, RBody.empty⟩ ∧
    Account.find (delete_account id s).2 id = none ∧
    (Account.find s id = none → (delete_account id s).2 = s) := by
  cases hf : Account.find s id with
  | none =>
    exact ⟨by simp [delete_account, hf], by simp [delete_account, hf],
      fun _ => by simp [delete_account, hf]⟩
  | some a =>
    refine ⟨by simp [delete_account, hf], ?_,
      fun hn => by simp [hf] at hn⟩
    have : (delete_account id s).2 = Store.deleteAccount s id := by
      simp [delete_account, hf]
    rw [this]
    exact find_deleteAccount s id

/-- Witness for C3 at account 1 of the sample store. -/
theorem claim_C3_witness :
    (delete_account 1 sampleStore).1 = ⟨204, RBody.empty⟩ ∧
    Account.find (delete_account 1 sampleStore).2 1 = none ∧
    (Account.find sampleStore 1 = none →
      (delete_account 1 sampleStore).2 = sampleStore) :=
  claim_C3_delete_idempotent 1 sampleStore

/-- Claim C4: a PUT to `/accounts/id` when no account with identifier `id`
exists answers 404 and leaves the store unchanged. -/
theorem claim_C4_put_missing_404 (id : Nat) (body : Option Payload)
    (today : String) (s : Store) (h : Account.find s id = none) :
    (update_account id body today s).1.status = 404 ∧
    (update_account id body today s).2 = s := by
  constructor <;> simp [update_account, h]

/-- Witness for C4: identifier 99 on the empty store with a valid body. -/
theorem claim_C4_witness :
    Account.find Store.emptyStore 99 = none ∧
    ((update_account 99 (some samplePayload) "2020-02-02"
        Store.emptyStore).1.status = 404 ∧
      (update_account 99 (some samplePayload) "2020-02-02"
        Store.emptyStore).2 = Store.emptyStore) :=
  ⟨rfl, claim_C4_put_missing_404 99 (some samplePayload) "2020-02-02"
    Store.emptyStore rfl⟩

/-- Claim C5: a GET on `/accounts/id` answers 200 with the serialized
account when an account with identifier `id` exists, and 404 otherwise. -/
theorem claim_C5_read_found_or_404 (idStr : String) (id : Nat) (s : Store)
    (hid : decimalSegment idStr = some id) :
    (∀ a : Account, Account.find s id = some a →
        read_account idStr s = (⟨200, RBody.obj a.serialize⟩, s)) ∧
    (Account.find s id = none → (read_account idStr s).1.status = 404) := by
  constructor
  · intro a ha
    simp [read_account, Account.findStr, hid, ha]
  · intro hn
    simp [read_account, Account.findStr, hid, hn]

/-- Witness for C5 at path segment `1` of the sample store. -/
theorem claim_C5_witness :
    (decimalSegment "1" = some 1) ∧
    ((∀ a : Account, Account.find sampleStore 1 = some a →
        read_account "1" sampleStore = (⟨200, RBody.obj a.serialize⟩,
          sampleStore)) ∧
      (Account.find sampleStore 1 = none →
        (read_account "1" sampleStore).1.status = 404)) :=
  ⟨by decide, claim_C5_read_found_or_404 "1" 1 sampleStore (by decide)⟩

/-- Claim C8: a POST to `/accounts` that fails with 415 (content type) or
400 (deserialization) creates no account: the store after the request is
exactly the store before it. -/
theorem claim_C8_failed_create_leaves_store (ct : Option String)
    (body : Option Payload) (today : String) (s : Store)
    (h : (create_accounts ct body today s).1.status = 415 ∨
         (create_accounts ct body today s).1.status = 400) :
    (create_accounts ct body today s).2 = s := by
  cases hc : check_content_type "application/json" ct with
  | some r => simp [create_accounts, hc]
  | none =>
    cases hd : deserialize body today with
    | none => simp [create_accounts, hc, hd]
    | some d =>
      exfalso
      simp [create_accounts, hc, hd] at h

/-- Witness for C8: a wrong media type with a valid body leaves the sample
store unchanged. -/
theorem claim_C8_witness :
    ((create_accounts (some "test/html") (some samplePayload) "2020-02-02"
        sampleStore).1.status = 415 ∨
      (create_accounts (some "test/html") (some samplePayload) "2020-02-02"
        sampleStore).1.status = 400) ∧
    (create_accounts (some "test/html") (some samplePayload) "2020-02-02"
      sampleStore).2 = sampleStore :=
  ⟨by decide, claim_C8_failed_create_leaves_store (some "test/html")
    (some samplePayload) "2020-02-02" sampleStore (by decide)⟩

/-- Claim C9: in the PUT handler the existence check precedes body
validation: with a missing identifier the answer is 404 and the whole
result is independent of the body (the body is never deserialized). -/
theorem claim_C9_put_existence_before_body (id : Nat)
    (b1 b2 : Option Payload) (t1 t2 : String) (s : Store)
    (h : Account.find s id = none) :
    (update_account id b1 t1 s).1.status = 404 ∧
    update_account id b1 t1 s = update_account id b2 t2 s := by
  constructor <;> simp [update_account, h]

/-- Witness for C9: identifier 99 on the empty store, once with a null body
and once with a valid body. -/
theorem claim_C9_witness :
    Account.find Store.emptyStore 99 = none ∧
    ((update_account 99 none "2020-02-02" Store.emptyStore).1.status = 404 ∧
      update_account 99 none "2020-02-02" Store.emptyStore =
        update_account 99 (some samplePayload) "2021-03-03"
          Store.emptyStore) :=
  ⟨rfl, claim_C9_put_existence_before_body 99 none (some samplePayload)
    "2020-02-02" "2021-03-03" Store.emptyStore rfl⟩

/-- Claim C10: a non-integer path segment reaches the read handler (whose
route uses the string converter) and yields 404 since no account matches,
while the PUT and DELETE routes use the integer converter and do not match
at all. -/
theorem claim_C10_route_converters (seg : String) (s : Store)
    (hne : seg ≠ "") (hni : decimalSegment seg = none) :
    dispatchAccountId HttpMethod.get seg = RouteMatch.readHandler seg ∧
    dispatchAccountId HttpMethod.put seg = RouteMatch.noRoute ∧
    dispatchAccountId HttpMethod.delete seg = RouteMatch.noRoute ∧
    (read_account seg s).1.status = 404 := by
  refine ⟨?_, ?_, ?_, ?_⟩ <;>
    simp [dispatchAccountId, hne, hni, read_account, Account.findStr]

/-- Witness for C10 at the non-integer segment `abc`. -/
theorem claim_C10_witness :
    ("abc" ≠ "" ∧ decimalSegment "abc" = none) ∧
    (dispatchAccountId HttpMethod.get "abc" = RouteMatch.readHandler "abc" ∧
      dispatchAccountId HttpMethod.put "abc" = RouteMatch.noRoute ∧
      dispatchAccountId HttpMethod.delete "abc" = RouteMatch.noRoute ∧
      (read_account "abc" sampleStore).1.status = 404) :=
  ⟨⟨by decide, by decide⟩,
    claim_C10_route_converters "abc" sampleStore (by decide) (by decide)⟩

/-- Claim C6: a successful PUT on an existing identifier overwrites the
account fields from the payload, keeps the identifier, and a subsequent GET
of the same id returns the new field values with the original id. -/
theorem claim_C6_update_then_read (idStr : String) (id : Nat)
    (body : Option Payload) (today : String) (s : Store) (a : Account)
    (d : AccountData)
    (hid : decimalSegment idStr = some id)
    (hf : Account.find s id = some a)
    (hd : deserialize body today = some d) :
    a.id = id ∧
    update_account id body today s =
      (⟨200, RBody.obj (Account.serialize
          ⟨a.id, d.name, d.email, d.address, d.phone_number, d.date_joined⟩)⟩,
        Store.updateAccount s
          ⟨a.id, d.name, d.email, d.address, d.phone_number,
            d.date_joined⟩) ∧
    read_account idStr (update_account id body today s).2 =
      (⟨200, RBody.obj (Account.serialize
          ⟨a.id, d.name, d.email, d.address, d.phone_number, d.date_joined⟩)⟩,
        (update_account id body today s).2) := by
  have haid : a.id = id := Account.find_id hf
  have h1 : update_account id body today s =
      (⟨200, RBody.obj (Account.serialize
          ⟨a.id, d.name, d.email, d.address, d.phone_number, d.date_joined⟩)⟩,
        Store.updateAccount s
          ⟨a.id, d.name, d.email, d.address, d.phone_number,
            d.date_joined⟩) := by
    simp [update_account, hf, hd]
  have h2 : Account.find (update_account id body today s).2 id =
      some ⟨a.id, d.name, d.email, d.address, d.phone_number,
        d.date_joined⟩ := by
    rw [h1]
    exact find_updateAccount _ hf haid
  exact ⟨haid, h1, by simp [read_account, Account.findStr, hid, h2]⟩

/-- Witness for C6: updating account 1 of the sample store with the sample
payload and then reading it back yields the payload fields under id 1. -/
theorem claim_C6_witness :
    (decimalSegment "1" = some 1 ∧
      Account.find sampleStore 1 = some sampleAccount ∧
      deserialize (some samplePayload) "2020-02-02" = some sampleData) ∧
    read_account "1"
        (update_account 1 (some samplePayload) "2020-02-02" sampleStore).2 =
      (⟨200, RBody.obj (Account.serialize
          ⟨sampleAccount.id, sampleData.name, sampleData.email,
            sampleData.address, sampleData.phone_number,
            sampleData.date_joined⟩)⟩,
        (update_account 1 (some samplePayload) "2020-02-02"
          sampleStore).2) :=
  ⟨⟨by decide, by decide, by decide⟩,
    (claim_C6_update_then_read "1" 1 (some samplePayload) "2020-02-02"
      sampleStore sampleAccount sampleData (by decide) (by decide)
      (by decide)).2.2⟩

/-- Threading any list of valid payloads through POST answers 201 to every
request and appends, to the store, accounts matching the payloads
pointwise. -/
theorem postAll_spec (today : String) (ps : List Payload) (s : Store) :
    (∀ p ∈ ps, (deserialize (some p) today).isSome) →
    postAllStatuses ps today s = List.replicate ps.length 201 ∧
    ∃ accs : List Account,
      (postAllStore ps today s).accounts = s.accounts ++ accs ∧
      List.Forall₂ (accountMatches today) accs ps := by
  induction ps generalizing s with
  | nil =>
    intro _
    exact ⟨by simp [postAllStatuses], [], by simp [postAllStore],
      List.Forall₂.nil⟩
  | cons p rest ih =>
    intro h
    obtain ⟨d, hd⟩ := Option.isSome_iff_exists.mp (h p (by simp))
    have hcreate : create_accounts (some "application/json") (some p)
        today s =
        (⟨201, RBody.obj (Account.serialize
            ⟨s.nextId, d.name, d.email, d.address, d.phone_number,
              d.date_joined⟩)⟩,
          ⟨s.accounts ++ [⟨s.nextId, d.name, d.email, d.address,
            d.phone_number, d.date_joined⟩], s.nextId + 1⟩) := by
      simp [create_accounts, check_content_type, hd, Store.create]
    obtain ⟨hst, accs, hacc, hall⟩ :=
      ih (create_accounts (some "application/json") (some p) today s).2
        (fun q hq => h q (List.mem_cons_of_mem _ hq))
    refine ⟨?_, ⟨s.nextId, d.name, d.email, d.address, d.phone_number,
      d.date_joined⟩ :: accs, ?_, ?_⟩
    · simp only [postAllStatuses]
      rw [hst, hcreate]
      simp [List.replicate_succ]
    · simp only [postAllStore]
      rw [hacc, hcreate]
      simp
    · exact List.Forall₂.cons (by simpa [accountMatches] using hd) hall

/-- Claim C7: starting from the empty store, POSTing N valid payloads
answers 201 each time, and a subsequent GET on `/accounts` answers 200 with
an array of exactly N serialized accounts matching the payloads
field-for-field; with no payloads the array is empty. -/
theorem claim_C7_create_then_list (ps : List Payload) (today : String)
    (h : ∀ p ∈ ps, (deserialize (some p) today).isSome) :
    postAllStatuses ps today Store.emptyStore =
      List.replicate ps.length 201 ∧
    ∃ accs : List Account,
      list_accounts (postAllStore ps today Store.emptyStore) =
        (⟨200, RBody.arr (accs.map Account.serialize)⟩,
          postAllStore ps today Store.emptyStore) ∧
      accs.length = ps.length ∧
      List.Forall₂ (accountMatches today) accs ps := by
  obtain ⟨hst, accs, hacc, hall⟩ := postAll_spec today ps Store.emptyStore h
  refine ⟨hst, accs, ?_, hall.length_eq, hall⟩
  have hacc2 : (postAllStore ps today Store.emptyStore).accounts = accs := by
    simpa [Store.emptyStore] using hacc
  simp [list_accounts, Store.all, hacc2]

/-- Witness for C7: two concrete valid payloads POSTed onto the empty
store. -/
theorem claim_C7_witness :
    (∀ p ∈ [samplePayload, samplePayload],
      (deserialize (some p) "2020-02-02").isSome) ∧
    (postAllStatuses [samplePayload, samplePayload] "2020-02-02"
        Store.emptyStore =
      List.replicate (List.length [samplePayload, samplePayload]) 201 ∧
    ∃ accs : List Account,
      list_accounts (postAllStore [samplePayload, samplePayload]
          "2020-02-02" Store.emptyStore) =
        (⟨200, RBody.arr (accs.map Account.serialize)⟩,
          postAllStore [samplePayload, samplePayload] "2020-02-02"
            Store.emptyStore) ∧
      accs.length = List.length [samplePayload, samplePayload] ∧
      List.Forall₂ (accountMatches "2020-02-02") accs
        [samplePayload, samplePayload]) :=
  ⟨by decide, claim_C7_create_then_list [samplePayload, samplePayload]
    "2020-02-02" (by decide)⟩

end Svc
